import Mathlib

/-!
Shallow embedding of the route-planning application: the project steps
`StepAOI.tsx` (origin/destination points), `StepParameters.tsx` (weight
table), `StepRoute.tsx` (`generateRoute`), `StepAnalytics.tsx`
(`mockAnalytics` and the analytics cards), and the Supabase schema
(`route_points`, `routes`, `routing_parameters`, `aoi_polygons`).

Stored coordinates are the EPSG:4326 longitude/latitude numbers kept in the
`geojson` columns; they are modelled as rationals (every stored coordinate is
a finite decimal).  The EPSG:3857 Web-Mercator computations performed by
OpenLayers (`fromLonLat` / `readFeatures` with `featureProjection:
"EPSG:3857"`) are modelled over the reals with the spherical Web-Mercator
formulas used by OpenLayers (sphere radius 6378137 m).
-/

namespace InnovationNest

/-- `point_type` column of `route_points`
(`CHECK (point_type IN ('origin', 'destination'))`). -/
inductive PointType where
  | origin
  | destination
  deriving DecidableEq

/-- One row of the `route_points` table, as read and written by the app.
`coord` is the EPSG:4326 (longitude, latitude) pair stored in the row's
`geojson` (the `geom` WKT column duplicates the same pair and is collapsed
into `coord` here). -/
structure RoutePointRow where
  project_id : ℕ
  point_type : PointType
  coord : ℚ × ℚ
  deriving DecidableEq

/-- `mockAnalytics.landCover` entries of `StepAnalytics.tsx`. -/
structure LandCoverShare where
  cover : String
  percentage : ℕ
  deriving DecidableEq

/-- `mockAnalytics.crossings` of `StepAnalytics.tsx`. -/
structure CrossingCounts where
  railroads : ℕ
  transmissionLines : ℕ
  pipelines : ℕ
  deriving DecidableEq

/-- `mockAnalytics.elevation` of `StepAnalytics.tsx`. -/
structure ElevationStats where
  min : ℕ
  max : ℕ
  avg : ℕ
  deriving DecidableEq

/-- The analytics report structure rendered by `StepAnalytics.tsx`. -/
structure AnalyticsData where
  landCover : List LandCoverShare
  crossings : CrossingCounts
  elevation : ElevationStats
  deriving DecidableEq

/-- The `mockAnalytics` constant of `StepAnalytics.tsx` (lines 47-64): a
literal object, written without reading any route, layer or parameter data. -/
def mockAnalytics : AnalyticsData :=
  { landCover :=
      [ { cover := "Developed", percentage := 15 }
      , { cover := "Forest", percentage := 45 }
      , { cover := "Cropland", percentage := 30 }
      , { cover := "Wetlands", percentage := 10 } ]
    crossings := { railroads := 3, transmissionLines := 7, pipelines := 2 }
    elevation := { min := 150, max := 850, avg := 420 } }

/-- One row of the `routes` table.  `geometry` is the EPSG:4326 coordinate
list of the stored `geojson` LineString (the `geom` WKT column holds the same
vertices); `analytics` is the `analytics JSONB` column, which no code path
ever writes. -/
structure RouteRow where
  project_id : ℕ
  geometry : List (ℝ × ℝ)
  length_km : ℝ
  cost : ℝ
  analytics : Option AnalyticsData

/-- One row of the parameter table of `StepParameters.tsx`. -/
structure ParameterRow where
  layer : String
  subcategory : String
  generalWeight : ℚ
  corridorWeight : ℚ
  barrierWeight : ℚ
  enabled : Bool
  deriving DecidableEq

/-- `defaultParameters` of `StepParameters.tsx` (lines 32-43). -/
def defaultParameters : List ParameterRow :=
  [ { layer := "Land Cover", subcategory := "Developed", generalWeight := 0.8,
      corridorWeight := 0, barrierWeight := 0, enabled := true }
  , { layer := "Land Cover", subcategory := "Forest", generalWeight := 0.3,
      corridorWeight := 0, barrierWeight := 0, enabled := true }
  , { layer := "Land Cover", subcategory := "Cropland", generalWeight := 0.5,
      corridorWeight := 0, barrierWeight := 0, enabled := true }
  , { layer := "Land Cover", subcategory := "Wetlands", generalWeight := 0.9,
      corridorWeight := 0, barrierWeight := 0, enabled := true }
  , { layer := "Transmission Lines", subcategory := "< 100kV", generalWeight := 0,
      corridorWeight := 0.2, barrierWeight := 0, enabled := true }
  , { layer := "Transmission Lines", subcategory := "100-230kV", generalWeight := 0,
      corridorWeight := 0.3, barrierWeight := 0, enabled := true }
  , { layer := "Transmission Lines", subcategory := "> 230kV", generalWeight := 0,
      corridorWeight := 0.4, barrierWeight := 0, enabled := true }
  , { layer := "Railroads", subcategory := "Low Speed", generalWeight := 0,
      corridorWeight := 0.3, barrierWeight := 0.4, enabled := true }
  , { layer := "Railroads", subcategory := "Medium Speed", generalWeight := 0,
      corridorWeight := 0.4, barrierWeight := 0.6, enabled := true }
  , { layer := "Railroads", subcategory := "High Speed", generalWeight := 0,
      corridorWeight := 0.5, barrierWeight := 0.8, enabled := true } ]

/-- The weight field being edited: the `field` argument of
`handleWeightChange` (only these three field names are ever passed). -/
inductive WeightField where
  | generalWeight
  | corridorWeight
  | barrierWeight
  deriving DecidableEq

/-- The spread-update `{ ...row, [field]: value }` performed by
`handleWeightChange`. -/
def setWeight (p : ParameterRow) (f : WeightField) (v : ℚ) : ParameterRow :=
  match f with
  | WeightField.generalWeight => { p with generalWeight := v }
  | WeightField.corridorWeight => { p with corridorWeight := v }
  | WeightField.barrierWeight => { p with barrierWeight := v }

/-- `handleWeightChange` of `StepParameters.tsx` (lines 72-76): copies the
array and overwrites row `i`'s field with `v`, with no validation or
clamping of `v`. -/
def handleWeightChange (params : List ParameterRow) (i : ℕ) (f : WeightField)
    (v : ℚ) : List ParameterRow :=
  match params[i]? with
  | some p => params.set i (setWeight p f v)
  | none => params

/-- Boolean check that all three weights of a row lie in [0,1]. -/
def weightsInRange (p : ParameterRow) : Bool :=
  decide (0 ≤ p.generalWeight) && decide (p.generalWeight ≤ 1) &&
  decide (0 ≤ p.corridorWeight) && decide (p.corridorWeight ≤ 1) &&
  decide (0 ≤ p.barrierWeight) && decide (p.barrierWeight ≤ 1)

/-- The database state visible to the project steps: the four per-project
tables touched by `StepAOI`, `StepParameters`, `StepRoute`, `StepAnalytics`.
AOI polygons are stored as their EPSG:4326 outer ring. -/
structure Db where
  aoi_polygons : List (ℕ × List (ℚ × ℚ))
  routing_parameters : List (ℕ × List ParameterRow)
  route_points : List RoutePointRow
  routes : List RouteRow

/-- `savePoint` of `StepAOI.tsx` (lines 456-510): delete every `route_points`
row with this `project_id` and `point_type`, then insert the new point. -/
def savePoint (db : Db) (pid : ℕ) (ty : PointType) (c : ℚ × ℚ) : Db :=
  let kept :=
    db.route_points.filter (fun r => !(r.project_id == pid && r.point_type == ty))
  { db with route_points := kept ++ [{ project_id := pid, point_type := ty, coord := c }] }

/-- The `route_points` rows of one project and point type. -/
def pointsFor (db : Db) (pid : ℕ) (ty : PointType) : List RoutePointRow :=
  db.route_points.filter (fun r => r.project_id == pid && r.point_type == ty)

/-- Invariant: at most one origin and at most one destination point per
project. -/
def atMostOnePoint (db : Db) : Prop :=
  ∀ pid ty, (pointsFor db pid ty).length ≤ 1

/-- The `route_points` query of `generateRoute`:
`supabase.from("route_points").select("*").eq("project_id", projectId)`. -/
def projectPoints (db : Db) (pid : ℕ) : List RoutePointRow :=
  db.route_points.filter (fun r => r.project_id == pid)

/-- Degrees to radians. -/
noncomputable def toRadians (d : ℝ) : ℝ := d * Real.pi / 180

/-- Radians to degrees. -/
noncomputable def fromRadians (r : ℝ) : ℝ := r * 180 / Real.pi

/-- Sphere radius of the spherical Web-Mercator (EPSG:3857) projection used
by OpenLayers, in meters. -/
noncomputable def earthRadius : ℝ := 6378137

/-- Cast a stored rational coordinate pair to the real plane. -/
noncomputable def q2r (c : ℚ × ℚ) : ℝ × ℝ := ((c.1 : ℝ), (c.2 : ℝ))

/-- EPSG:4326 (lon, lat) degrees to EPSG:3857 meters: the projection applied
by `readFeatures(..., { featureProjection: "EPSG:3857" })`. -/
noncomputable def merc (c : ℝ × ℝ) : ℝ × ℝ :=
  (earthRadius * toRadians c.1,
   earthRadius * Real.log (Real.tan (Real.pi / 4 + toRadians c.2 / 2)))

/-- EPSG:3857 meters back to EPSG:4326 degrees: the inverse projection
applied by `writeFeature(..., { dataProjection: "EPSG:4326" })`. -/
noncomputable def mercInv (p : ℝ × ℝ) : ℝ × ℝ :=
  (fromRadians (p.1 / earthRadius),
   fromRadians (2 * Real.arctan (Real.exp (p.2 / earthRadius)) - Real.pi / 2))

/-- The route value computed and stored by `generateRoute`: the written-back
EPSG:4326 geometry and the `length_km` and `cost` columns. -/
structure GeneratedRoute where
  geometry : List (ℝ × ℝ)
  length_km : ℝ
  cost : ℝ

/-- The computation of `generateRoute` (`StepRoute.tsx` lines 182-219) on the
origin and destination coordinates: project both points to EPSG:3857, build
the two-vertex LineString, write it back in EPSG:4326, take the planar
Euclidean distance of the projected points divided by 1000 as `length_km`
(`// Convert to km`), and `length * 1000` as `cost` (`// Mock cost`). -/
noncomputable def mkRoute (o d : ℚ × ℚ) : GeneratedRoute :=
  let oc := merc (q2r o)
  let dc := merc (q2r d)
  let len := Real.sqrt ((dc.1 - oc.1) ^ 2 + (dc.2 - oc.2) ^ 2) / 1000
  { geometry := [mercInv oc, mercInv dc]
    length_km := len
    cost := len * 1000 }

/-- The only failure `generateRoute` can raise itself: the thrown
`Error("Both origin and destination points are required")`.  No other error
kind (in particular no endpoint-validation error) exists in the code. -/
inductive RouteGenError where
  | missingPoints
  deriving DecidableEq

/-- The point-reading prefix of `generateRoute` (`StepRoute.tsx` lines
166-219): fail when fewer than two rows exist or when either the origin or
the destination row is missing, otherwise build the straight-line route. -/
noncomputable def routeFromPoints (pts : List RoutePointRow) :
    Except RouteGenError GeneratedRoute :=
  if pts.length < 2 then Except.error RouteGenError.missingPoints
  else
    match pts.find? (fun r => r.point_type == PointType.origin),
          pts.find? (fun r => r.point_type == PointType.destination) with
    | some o, some d => Except.ok (mkRoute o.coord d.coord)
    | _, _ => Except.error RouteGenError.missingPoints

/-- The persistence tail of `generateRoute` (`StepRoute.tsx` lines 221-250):
if a `routes` row for the project exists, update its `geom`, `geojson`,
`length_km` and `cost` columns (leaving `analytics` untouched); otherwise
insert a fresh row (whose `analytics` column is null). -/
noncomputable def upsertRoutes (routes : List RouteRow) (pid : ℕ)
    (r : GeneratedRoute) : List RouteRow :=
  if (routes.find? (fun rt => rt.project_id == pid)).isSome then
    routes.map (fun rt =>
      if rt.project_id == pid then
        { rt with geometry := r.geometry, length_km := r.length_km,
                  cost := r.cost }
      else rt)
  else
    routes ++ [{ project_id := pid, geometry := r.geometry,
                 length_km := r.length_km, cost := r.cost, analytics := none }]

/-- `generateRoute` of `StepRoute.tsx` (lines 161-268) as a state transition:
it reads only the `route_points` and `routes` tables (never `aoi_polygons`
or `routing_parameters`), computes the straight-line route, and upserts the
project's single `routes` row. -/
noncomputable def generateRoute (db : Db) (pid : ℕ) :
    Except RouteGenError (GeneratedRoute × Db) :=
  match routeFromPoints (projectPoints db pid) with
  | Except.error e => Except.error e
  | Except.ok r => Except.ok (r, { db with routes := upsertRoutes db.routes pid r })

/-- The `routes` rows of one project. -/
def routesFor (db : Db) (pid : ℕ) : List RouteRow :=
  db.routes.filter (fun rt => rt.project_id == pid)

/-- Invariant backed by the schema's `project_id UUID ... NOT NULL UNIQUE` on
`routes`: at most one stored route per project. -/
def uniqueRoutePerProject (db : Db) : Prop :=
  ∀ pid, (routesFor db pid).length ≤ 1

/-- The data content of a `routes` row (everything `generateRoute` writes). -/
def rowData (row : RouteRow) : ℕ × List (ℝ × ℝ) × ℝ × ℝ :=
  (row.project_id, row.geometry, row.length_km, row.cost)

/-- The `routes` query of `StepAnalytics.tsx` (`loadRouteData`). -/
def routeFor (db : Db) (pid : ℕ) : Option RouteRow :=
  db.routes.find? (fun rt => rt.project_id == pid)

/-- What `StepAnalytics.tsx` renders: `length_km` and `cost` from the loaded
route row, and the `mockAnalytics` report, which is a constant independent of
the route. -/
structure DisplayedAnalytics where
  length_km : Option ℝ
  cost : Option ℝ
  report : AnalyticsData

/-- The analytics cards of `StepAnalytics.tsx` as a function of the loaded
route row. -/
def stepAnalyticsView (route : Option RouteRow) : DisplayedAnalytics :=
  { length_km := route.map RouteRow.length_km
    cost := route.map RouteRow.cost
    report := mockAnalytics }

/-- The decorative elevation-profile bar heights of `StepAnalytics.tsx`
(lines 180-194): `Math.sin(i / 5) * 30 + Math.random() * 20 + 50`.  This is
the only place the cited code draws on randomness; it feeds only this chart,
never the stored route or the report values. -/
noncomputable def elevationBarHeight (rand : ℕ → ℝ) (i : ℕ) : ℝ :=
  Real.sin ((i : ℝ) / 5) * 30 + rand i * 20 + 50

/-- Modelled from the spec: the repository contains no point-in-polygon test
(`generateRoute` never touches the AOI), so "the destination point lies
outside the AOI polygon" is expressed with the standard even-odd ray-casting
membership test over the stored ring. -/
def ringEdges (ring : List (ℚ × ℚ)) : List ((ℚ × ℚ) × (ℚ × ℚ)) :=
  match ring with
  | [] => []
  | a :: rest => ring.zip (rest ++ [a])

/-- Modelled from the spec: does the horizontal ray from `p` cross edge `e`
(even-odd rule)? -/
def crossesRay (p : ℚ × ℚ) (e : (ℚ × ℚ) × (ℚ × ℚ)) : Bool :=
  decide (((e.1.2 ≤ p.2 ∧ p.2 < e.2.2) ∨ (e.2.2 ≤ p.2 ∧ p.2 < e.1.2)) ∧
    p.1 < e.1.1 + (e.2.1 - e.1.1) * (p.2 - e.1.2) / (e.2.2 - e.1.2))

/-- Modelled from the spec: even-odd point-in-ring test. -/
def pointInRing (ring : List (ℚ × ℚ)) (p : ℚ × ℚ) : Bool :=
  ((ringEdges ring).countP (crossesRay p)) % 2 == 1

/-- Planar Euclidean segment length, the metric `generateRoute` applies to
EPSG:3857 coordinates. -/
noncomputable def segLen (a b : ℝ × ℝ) : ℝ :=
  Real.sqrt ((b.1 - a.1) ^ 2 + (b.2 - a.2) ^ 2)

/-- Planar Euclidean length of a polyline. -/
noncomputable def planarLength : List (ℝ × ℝ) → ℝ
  | a :: b :: rest => segLen a b + planarLength (b :: rest)
  | _ => 0

/-- Great-circle distance between two EPSG:4326 (lon, lat) degree pairs on
the sphere of radius `earthRadius` (spherical law of cosines). -/
noncomputable def greatCircleDist (p q : ℝ × ℝ) : ℝ :=
  earthRadius * Real.arccos
    (Real.sin (toRadians p.2) * Real.sin (toRadians q.2) +
     Real.cos (toRadians p.2) * Real.cos (toRadians q.2) *
     Real.cos (toRadians q.1 - toRadians p.1))

/-- Sum of great-circle segment distances over consecutive vertices. -/
noncomputable def pathGCLength : List (ℝ × ℝ) → ℝ
  | a :: b :: rest => greatCircleDist a b + pathGCLength (b :: rest)
  | _ => 0

/-- A square AOI ring used by the concrete states below. -/
def squareRing : List (ℚ × ℚ) := [(0, 0), (10, 0), (10, 10), (0, 10)]

/-- A concrete project state: square AOI, default parameters, origin (2,2)
and destination (8,8), no stored route. -/
def baseDb : Db :=
  { aoi_polygons := [(1, squareRing)]
    routing_parameters := [(1, defaultParameters)]
    route_points :=
      [ { project_id := 1, point_type := PointType.origin, coord := (2, 2) }
      , { project_id := 1, point_type := PointType.destination, coord := (8, 8) } ]
    routes := [] }

/-- Like `baseDb` but with the destination at (50, 50), far outside the AOI. -/
def outsideDestDb : Db :=
  { baseDb with route_points :=
      [ { project_id := 1, point_type := PointType.origin, coord := (2, 2) }
      , { project_id := 1, point_type := PointType.destination, coord := (50, 50) } ] }

/-- Like `baseDb` but with both points at latitude 60°, one degree of
longitude apart. -/
def highLatDb : Db :=
  { baseDb with route_points :=
      [ { project_id := 1, point_type := PointType.origin, coord := (0, 60) }
      , { project_id := 1, point_type := PointType.destination, coord := (1, 60) } ] }

/-- A second concrete state with the same `route_points` as `baseDb` but a
different AOI, a weight table with the Forest `generalWeight` raised to 0.9,
and an unrelated stored route for another project. -/
def alteredDb : Db :=
  { aoi_polygons := [(1, [(0, 0), (20, 0), (20, 20), (0, 20)])]
    routing_parameters :=
      [(1, handleWeightChange defaultParameters 1 WeightField.generalWeight 0.9)]
    route_points := baseDb.route_points
    routes :=
      [ { project_id := 2, geometry := [], length_km := 0, cost := 0,
          analytics := none } ] }

/-- A state holding a single stored point, used to exercise `savePoint`. -/
def oneOriginDb : Db :=
  { baseDb with route_points :=
      [ { project_id := 1, point_type := PointType.origin, coord := (2, 2) } ] }

/-- Like `baseDb` but with a different AOI polygon (same points, same
routes). -/
def otherAoiDb : Db :=
  { baseDb with aoi_polygons := [(1, [(0, 0), (30, 0), (30, 30), (0, 30)])] }

/-- The `routes` row inserted for `baseDb`'s points, used as concrete data. -/
noncomputable def insertedRow : RouteRow :=
  { project_id := 1
    geometry := (mkRoute (2, 2) (8, 8)).geometry
    length_km := (mkRoute (2, 2) (8, 8)).length_km
    cost := (mkRoute (2, 2) (8, 8)).cost
    analytics := none }

/-! ## General helper lemmas -/

lemma two_le_length_of_mem_ne {α : Type} {l : List α} {a b : α}
    (ha : a ∈ l) (hb : b ∈ l) (hab : a ≠ b) : 2 ≤ l.length := by
  match l with
  | [] => simp at ha
  | [x] =>
    simp at ha hb
    exact absurd (ha.trans hb.symm) hab
  | x :: y :: t =>
    simp only [List.length_cons]
    omega

lemma filter_not_filter {α : Type} (p : α → Bool) (l : List α) :
    (l.filter (fun a => !(p a))).filter p = [] := by
  induction l with
  | nil => rfl
  | cons a t ih =>
    cases hpa : p a <;> simp [List.filter_cons, hpa, ih]

lemma filter_map_comm {α : Type} (g : α → α) (p : α → Bool)
    (h : ∀ a, p (g a) = p a) (l : List α) :
    (l.map g).filter p = (l.filter p).map g := by
  induction l with
  | nil => rfl
  | cons a t ih =>
    cases hpa : p a <;> simp [List.filter_cons, h a, hpa, ih]

lemma filter_filter_of_imp {α : Type} (p q : α → Bool)
    (h : ∀ a, q a = true → p a = false) (l : List α) :
    (l.filter (fun a => !(p a))).filter q = l.filter q := by
  induction l with
  | nil => rfl
  | cons a t ih =>
    by_cases hqa : q a = true
    · have hpa : p a = false := h a hqa
      simp [List.filter_cons, hpa, hqa, ih]
    · cases hpa : p a <;> simp [List.filter_cons, hpa, hqa, ih]

lemma filter_eq_single_of_find? {α : Type} (p : α → Bool) (l : List α) (x : α)
    (hf : l.find? p = some x) (hl : (l.filter p).length ≤ 1) :
    l.filter p = [x] := by
  have hx : x ∈ l.filter p :=
    List.mem_filter.mpr ⟨List.mem_of_find?_eq_some hf, List.find?_some hf⟩
  cases hfl : l.filter p with
  | nil => rw [hfl] at hx; simp at hx
  | cons a tl =>
    cases tl with
    | nil =>
      rw [hfl] at hx
      simp at hx
      rw [hx]
    | cons b t =>
      rw [hfl] at hl
      simp only [List.length_cons] at hl
      omega

/-! ## Planar geometry helpers -/

lemma segLen_eq_dist (a b : ℝ × ℝ) :
    segLen a b = dist (⟨a.1, a.2⟩ : ℂ) (⟨b.1, b.2⟩ : ℂ) := by
  rw [Complex.dist_eq, Complex.abs_apply, Complex.normSq_apply]
  unfold segLen
  simp only [Complex.sub_re, Complex.sub_im]
  congr 1
  ring

lemma segLen_triangle (a b c : ℝ × ℝ) : segLen a c ≤ segLen a b + segLen b c := by
  rw [segLen_eq_dist, segLen_eq_dist, segLen_eq_dist]
  exact dist_triangle _ _ _

lemma segLen_self (a : ℝ × ℝ) : segLen a a = 0 := by
  rw [segLen_eq_dist]
  exact dist_self _

lemma straight_le_planarLength :
    ∀ (l : List (ℝ × ℝ)) (a b : ℝ × ℝ), l.head? = some a → l.getLast? = some b →
      segLen a b ≤ planarLength l := by
  intro l
  induction l with
  | nil => intro a b ha _; simp at ha
  | cons x t ih =>
    intro a b ha hb
    have hxa : x = a := by simpa using ha
    subst hxa
    cases t with
    | nil =>
      have hxb : x = b := by simpa using hb
      subst hxb
      simp [planarLength, segLen_self]
    | cons y u =>
      have hb' : (y :: u).getLast? = some b := by
        rw [List.getLast?_cons_cons] at hb
        exact hb
      have h2 := ih y b rfl hb'
      have h3 : planarLength (x :: y :: u) = segLen x y + planarLength (y :: u) := rfl
      have h4 := segLen_triangle x y b
      rw [h3]
      linarith

/-! ## Mercator projection helpers -/

lemma earthRadius_pos : (0 : ℝ) < earthRadius := by
  unfold earthRadius
  norm_num

/-- Reading a stored EPSG:4326 feature into EPSG:3857 and writing it back to
EPSG:4326 round-trips for any latitude strictly between the poles. -/
lemma mercInv_merc (c : ℝ × ℝ) (h : |c.2| < 90) : mercInv (merc c) = c := by
  have hR : earthRadius ≠ 0 := ne_of_gt earthRadius_pos
  have hπ0 : (0 : ℝ) < Real.pi := Real.pi_pos
  have hπ : Real.pi ≠ 0 := ne_of_gt hπ0
  obtain ⟨hm, hp⟩ := abs_lt.mp h
  have ht1 : -(Real.pi / 2) < c.2 * Real.pi / 180 := by
    have := mul_pos (by linarith : (0 : ℝ) < c.2 + 90) hπ0
    nlinarith
  have ht2 : c.2 * Real.pi / 180 < Real.pi / 2 := by
    have := mul_pos (by linarith : (0 : ℝ) < 90 - c.2) hπ0
    nlinarith
  have hu0 : 0 < Real.pi / 4 + c.2 * Real.pi / 180 / 2 := by linarith
  have hu2 : Real.pi / 4 + c.2 * Real.pi / 180 / 2 < Real.pi / 2 := by linarith
  have htan : 0 < Real.tan (Real.pi / 4 + c.2 * Real.pi / 180 / 2) :=
    Real.tan_pos_of_pos_of_lt_pi_div_two hu0 hu2
  unfold mercInv merc toRadians fromRadians
  refine Prod.ext ?_ ?_
  · show earthRadius * (c.1 * Real.pi / 180) / earthRadius * 180 / Real.pi = c.1
    field_simp
    ring
  · show (2 * Real.arctan (Real.exp (earthRadius *
        Real.log (Real.tan (Real.pi / 4 + c.2 * Real.pi / 180 / 2)) / earthRadius)) -
        Real.pi / 2) * 180 / Real.pi = c.2
    rw [mul_div_cancel_left₀ _ hR, Real.exp_log htan,
      Real.arctan_tan (by linarith) (by linarith)]
    field_simp
    ring

lemma mkRoute_geometry (o d : ℚ × ℚ) (ho : |o.2| < 90) (hd : |d.2| < 90) :
    (mkRoute o d).geometry = [q2r o, q2r d] := by
  have base : (mkRoute o d).geometry
      = [mercInv (merc (q2r o)), mercInv (merc (q2r d))] := rfl
  have ho' : |((o.2 : ℚ) : ℝ)| < 90 := by exact_mod_cast ho
  have hd' : |((d.2 : ℚ) : ℝ)| < 90 := by exact_mod_cast hd
  rw [base, mercInv_merc (q2r o) ho', mercInv_merc (q2r d) hd']

/-! ## Spherical comparison helpers -/

lemma arccos_lt_of_cos_lt {x δ : ℝ} (hδ0 : 0 ≤ δ) (hx1 : x ≤ 1)
    (hxc : Real.cos δ < x) : Real.arccos x < δ := by
  have hxg : (-1 : ℝ) ≤ x := le_trans (Real.neg_one_le_cos δ) (le_of_lt hxc)
  by_contra hcon
  push_neg at hcon
  have h1 : Real.cos (Real.arccos x) ≤ Real.cos δ :=
    Real.cos_le_cos_of_nonneg_of_le_pi hδ0 (Real.arccos_le_pi x) hcon
  rw [Real.cos_arccos hxg hx1] at h1
  linarith

/-- For two points at a common latitude `t ∈ (0, π/2)` and a longitude gap
`δ ∈ (0, π]`, the great-circle central angle is strictly smaller than `δ`
(the Web-Mercator planar angle for such a pair). -/
lemma arccos_same_lat_lt {t δ : ℝ} (ht0 : 0 < t) (htp : t < Real.pi / 2)
    (hδ0 : 0 < δ) (hδπ : δ ≤ Real.pi) :
    Real.arccos (Real.sin t * Real.sin t
      + Real.cos t * Real.cos t * Real.cos δ) < δ := by
  have hs : 0 < Real.sin t :=
    Real.sin_pos_of_pos_of_lt_pi ht0 (lt_of_lt_of_le htp (by linarith [Real.pi_pos]))
  have hc1 : Real.cos δ ≤ 1 := Real.cos_le_one δ
  have hclt : Real.cos δ < 1 := by
    have := Real.cos_lt_cos_of_nonneg_of_le_pi (le_refl 0) hδπ hδ0
    simpa using this
  have hpy : Real.sin t * Real.sin t + Real.cos t * Real.cos t = 1 := by
    linear_combination Real.sin_sq_add_cos_sq t
  have key : Real.sin t * Real.sin t + Real.cos t * Real.cos t * Real.cos δ
      - Real.cos δ = Real.sin t * Real.sin t * (1 - Real.cos δ) := by
    linear_combination Real.cos δ * hpy
  have key2 : Real.sin t * Real.sin t + Real.cos t * Real.cos t * Real.cos δ - 1
      = Real.cos t * Real.cos t * (Real.cos δ - 1) := by
    linear_combination hpy
  have hnp : Real.cos t * Real.cos t * (Real.cos δ - 1) ≤ 0 :=
    mul_nonpos_of_nonneg_of_nonpos (mul_self_nonneg _) (by linarith)
  have hx1 : Real.sin t * Real.sin t + Real.cos t * Real.cos t * Real.cos δ ≤ 1 := by
    linarith
  have hpos : 0 < Real.sin t * Real.sin t * (1 - Real.cos δ) :=
    mul_pos (mul_pos hs hs) (by linarith)
  have hgt : Real.cos δ < Real.sin t * Real.sin t
      + Real.cos t * Real.cos t * Real.cos δ := by linarith
  exact arccos_lt_of_cos_lt (le_of_lt hδ0) hx1 hgt

/-! ## `generateRoute` structure lemmas -/

lemma routeFromPoints_ok (pts : List RoutePointRow) (o d : RoutePointRow)
    (ho : pts.find? (fun r => r.point_type == PointType.origin) = some o)
    (hd : pts.find? (fun r => r.point_type == PointType.destination) = some d) :
    routeFromPoints pts = Except.ok (mkRoute o.coord d.coord) := by
  have hom : o ∈ pts := List.mem_of_find?_eq_some ho
  have hdm : d ∈ pts := List.mem_of_find?_eq_some hd
  have hot : o.point_type = PointType.origin := by
    have := List.find?_some ho
    simpa using this
  have hdt : d.point_type = PointType.destination := by
    have := List.find?_some hd
    simpa using this
  have hne : o ≠ d := by
    intro heq
    rw [heq, hdt] at hot
    exact PointType.noConfusion hot
  have hlen : ¬ pts.length < 2 := by
    have := two_le_length_of_mem_ne hom hdm hne
    omega
  unfold routeFromPoints
  rw [if_neg hlen, ho, hd]

lemma generateRoute_ok (db : Db) (pid : ℕ) (o d : RoutePointRow)
    (ho : (projectPoints db pid).find?
      (fun r => r.point_type == PointType.origin) = some o)
    (hd : (projectPoints db pid).find?
      (fun r => r.point_type == PointType.destination) = some d) :
    generateRoute db pid = Except.ok (mkRoute o.coord d.coord,
      { db with routes := upsertRoutes db.routes pid (mkRoute o.coord d.coord) }) := by
  unfold generateRoute
  rw [routeFromPoints_ok _ o d ho hd]

lemma generateRoute_inv {db : Db} {pid : ℕ} {r : GeneratedRoute} {db' : Db}
    (h : generateRoute db pid = Except.ok (r, db')) :
    routeFromPoints (projectPoints db pid) = Except.ok r ∧
    db' = { db with routes := upsertRoutes db.routes pid r } := by
  unfold generateRoute at h
  cases hrf : routeFromPoints (projectPoints db pid) with
  | error e =>
    rw [hrf] at h
    exact absurd h (by simp)
  | ok r0 =>
    rw [hrf] at h
    have h2 : (r0, { db with routes := upsertRoutes db.routes pid r0 }) = (r, db') :=
      Except.ok.inj h
    have hr0 : r0 = r := congrArg Prod.fst h2
    subst hr0
    exact ⟨rfl, (congrArg Prod.snd h2).symm⟩

lemma routeFromPoints_inv {pts : List RoutePointRow} {r : GeneratedRoute}
    (h : routeFromPoints pts = Except.ok r) :
    ∃ o d, pts.find? (fun x => x.point_type == PointType.origin) = some o ∧
      pts.find? (fun x => x.point_type == PointType.destination) = some d ∧
      r = mkRoute o.coord d.coord := by
  unfold routeFromPoints at h
  by_cases hl : pts.length < 2
  · rw [if_pos hl] at h
    exact absurd h (by simp)
  · rw [if_neg hl] at h
    cases ho : pts.find? (fun x => x.point_type == PointType.origin) with
    | none =>
      rw [ho] at h
      cases hd : pts.find? (fun x => x.point_type == PointType.destination) with
      | none => rw [hd] at h; exact absurd h (by simp)
      | some d => rw [hd] at h; exact absurd h (by simp)
    | some o =>
      rw [ho] at h
      cases hd : pts.find? (fun x => x.point_type == PointType.destination) with
      | none => rw [hd] at h; exact absurd h (by simp)
      | some d =>
        rw [hd] at h
        exact ⟨o, d, rfl, rfl, (Except.ok.inj h).symm⟩

/-! ## `upsertRoutes` lemmas -/

lemma upsertRoutes_filter_self (routes : List RouteRow) (pid : ℕ)
    (r : GeneratedRoute)
    (hu : (routes.filter (fun rt => rt.project_id == pid)).length ≤ 1) :
    ((upsertRoutes routes pid r).filter (fun rt => rt.project_id == pid)).map rowData
      = [(pid, r.geometry, r.length_km, r.cost)] := by
  have hpres : ∀ rt : RouteRow,
      (((if rt.project_id == pid then
          { rt with geometry := r.geometry, length_km := r.length_km,
                    cost := r.cost }
        else rt : RouteRow)).project_id == pid) = (rt.project_id == pid) := by
    intro rt
    by_cases hx : (rt.project_id == pid) = true
    · simp [hx]
    · simp [hx]
  unfold upsertRoutes
  by_cases hf : (routes.find? (fun rt => rt.project_id == pid)).isSome
  · rw [if_pos hf]
    obtain ⟨x, hx⟩ := Option.isSome_iff_exists.mp hf
    have hxp : (x.project_id == pid) = true := by
      have := List.find?_some hx
      simpa using this
    have hxq : x.project_id = pid := beq_iff_eq.mp hxp
    have hfil : routes.filter (fun rt => rt.project_id == pid) = [x] :=
      filter_eq_single_of_find? _ _ _ hx hu
    rw [filter_map_comm _ _ hpres routes, hfil]
    simp [rowData, hxq]
  · rw [if_neg hf]
    have hnone : routes.find? (fun rt => rt.project_id == pid) = none :=
      Option.not_isSome_iff_eq_none.mp hf
    have hfil : routes.filter (fun rt => rt.project_id == pid) = [] :=
      List.filter_eq_nil_iff.mpr (fun a ha hpa => (List.find?_eq_none.mp hnone a ha) hpa)
    rw [List.filter_append, hfil]
    simp [rowData]

lemma upsertRoutes_filter_other (routes : List RouteRow) (pid : ℕ)
    (r : GeneratedRoute) (pid' : ℕ) (hne : pid' ≠ pid) :
    ((upsertRoutes routes pid r).filter (fun rt => rt.project_id == pid')).length
      = (routes.filter (fun rt => rt.project_id == pid')).length := by
  have hpres : ∀ rt : RouteRow,
      (((if rt.project_id == pid then
          { rt with geometry := r.geometry, length_km := r.length_km,
                    cost := r.cost }
        else rt : RouteRow)).project_id == pid') = (rt.project_id == pid') := by
    intro rt
    by_cases hx : (rt.project_id == pid) = true
    · simp [hx]
    · simp [hx]
  unfold upsertRoutes
  by_cases hf : (routes.find? (fun rt => rt.project_id == pid)).isSome
  · rw [if_pos hf, filter_map_comm _ _ hpres routes, List.length_map]
  · rw [if_neg hf, List.filter_append]
    have hq : ((pid : ℕ) == pid') = false := by
      exact beq_eq_false_iff_ne.mpr (Ne.symm hne)
    simp [hq]

/-! ## `savePoint` lemmas -/

lemma pointsFor_savePoint_self (db : Db) (pid : ℕ) (ty : PointType) (c : ℚ × ℚ) :
    pointsFor (savePoint db pid ty c) pid ty
      = [{ project_id := pid, point_type := ty, coord := c }] := by
  show (((db.route_points.filter
      (fun r : RoutePointRow => !(r.project_id == pid && r.point_type == ty))) ++
      [({ project_id := pid, point_type := ty, coord := c } : RoutePointRow)]).filter
      (fun r : RoutePointRow => r.project_id == pid && r.point_type == ty)) = _
  rw [List.filter_append, filter_not_filter]
  simp

lemma pointsFor_savePoint_other (db : Db) (pid : ℕ) (ty : PointType)
    (c : ℚ × ℚ) (pid' : ℕ) (ty' : PointType)
    (hne : ¬(pid' = pid ∧ ty' = ty)) :
    pointsFor (savePoint db pid ty c) pid' ty' = pointsFor db pid' ty' := by
  have himp : ∀ a : RoutePointRow,
      (a.project_id == pid' && a.point_type == ty') = true →
      (a.project_id == pid && a.point_type == ty) = false := by
    intro a ha
    rw [Bool.and_eq_true, beq_iff_eq, beq_iff_eq] at ha
    by_contra hc
    rw [Bool.not_eq_false, Bool.and_eq_true, beq_iff_eq, beq_iff_eq] at hc
    exact hne ⟨by rw [← ha.1]; exact hc.1, by rw [← ha.2]; exact hc.2⟩
  show (((db.route_points.filter
      (fun r : RoutePointRow => !(r.project_id == pid && r.point_type == ty))) ++
      [({ project_id := pid, point_type := ty, coord := c } : RoutePointRow)]).filter
      (fun r : RoutePointRow => r.project_id == pid' && r.point_type == ty')) = _
  rw [List.filter_append, filter_filter_of_imp _ _ himp]
  have hq : ((pid == pid') && (ty == ty')) = false := by
    by_contra hc
    rw [Bool.not_eq_false, Bool.and_eq_true, beq_iff_eq, beq_iff_eq] at hc
    exact hne ⟨hc.1.symm, hc.2.symm⟩
  simp [hq]
  rfl

/-- For two stored points on a common latitude in (0°, 90°), separated
eastward by at most 180° of longitude: the stored `length_km` equals the
Web-Mercator planar distance (`R·Δλ` in radians) divided by 1000, and the
great-circle length of the stored geometry is strictly smaller than the
stored length. -/
lemma mkRoute_same_lat (o d : ℚ × ℚ) (hlat : o.2 = d.2) (h0 : 0 < o.2)
    (h90 : o.2 < 90) (hlon : o.1 < d.1) (h180 : d.1 - o.1 ≤ 180) :
    1000 * (mkRoute o d).length_km =
      earthRadius * (toRadians ((d.1 : ℝ)) - toRadians ((o.1 : ℝ))) ∧
    pathGCLength (mkRoute o d).geometry < 1000 * (mkRoute o d).length_km := by
  have hπ : (0 : ℝ) < Real.pi := Real.pi_pos
  have hR : (0 : ℝ) < earthRadius := earthRadius_pos
  have h0' : (0 : ℝ) < ((o.2 : ℚ) : ℝ) := by exact_mod_cast h0
  have h90' : (((o.2 : ℚ) : ℝ)) < 90 := by exact_mod_cast h90
  have hlon' : (((o.1 : ℚ) : ℝ)) < ((d.1 : ℚ) : ℝ) := by exact_mod_cast hlon
  have h180' : (((d.1 : ℚ) : ℝ)) - ((o.1 : ℚ) : ℝ) ≤ 180 := by exact_mod_cast h180
  have hlat' : (((o.2 : ℚ) : ℝ)) = ((d.2 : ℚ) : ℝ) := by exact_mod_cast hlat
  have h0d : (0 : ℝ) < ((d.2 : ℚ) : ℝ) := hlat' ▸ h0'
  have h90d : (((d.2 : ℚ) : ℝ)) < 90 := hlat' ▸ h90'
  -- the common latitude in radians
  have hT0 : 0 < toRadians ((d.2 : ℝ)) := by
    unfold toRadians
    nlinarith [mul_pos h0d hπ]
  have hTp : toRadians ((d.2 : ℝ)) < Real.pi / 2 := by
    unfold toRadians
    nlinarith [mul_pos (sub_pos.mpr h90d) hπ]
  -- the longitude gap in radians
  have hδ0 : 0 < toRadians ((d.1 : ℝ)) - toRadians ((o.1 : ℝ)) := by
    unfold toRadians
    nlinarith [mul_pos (sub_pos.mpr hlon') hπ]
  have hδπ : toRadians ((d.1 : ℝ)) - toRadians ((o.1 : ℝ)) ≤ Real.pi := by
    unfold toRadians
    nlinarith [mul_le_mul_of_nonneg_right h180' (le_of_lt hπ)]
  -- the stored length
  have base : (mkRoute o d).length_km = Real.sqrt
      (((merc (q2r d)).1 - (merc (q2r o)).1) ^ 2
        + ((merc (q2r d)).2 - (merc (q2r o)).2) ^ 2) / 1000 := rfl
  have hA : (merc (q2r d)).1 - (merc (q2r o)).1
      = earthRadius * (toRadians ((d.1 : ℝ)) - toRadians ((o.1 : ℝ))) := by
    show earthRadius * toRadians ((d.1 : ℝ)) - earthRadius * toRadians ((o.1 : ℝ)) = _
    ring
  have hB : (merc (q2r d)).2 - (merc (q2r o)).2 = 0 := by
    show earthRadius * Real.log (Real.tan (Real.pi / 4 + toRadians ((d.2 : ℝ)) / 2))
      - earthRadius * Real.log (Real.tan (Real.pi / 4 + toRadians ((o.2 : ℝ)) / 2)) = 0
    rw [hlat']
    ring
  have hlkm : (mkRoute o d).length_km
      = earthRadius * (toRadians ((d.1 : ℝ)) - toRadians ((o.1 : ℝ))) / 1000 := by
    rw [base, hA, hB]
    rw [show (earthRadius * (toRadians ((d.1 : ℝ)) - toRadians ((o.1 : ℝ)))) ^ 2
        + (0 : ℝ) ^ 2
      = (earthRadius * (toRadians ((d.1 : ℝ)) - toRadians ((o.1 : ℝ)))) ^ 2 by ring]
    rw [Real.sqrt_sq (le_of_lt (mul_pos hR hδ0))]
  have hfirst : 1000 * (mkRoute o d).length_km
      = earthRadius * (toRadians ((d.1 : ℝ)) - toRadians ((o.1 : ℝ))) := by
    rw [hlkm]
    ring
  refine ⟨hfirst, ?_⟩
  -- the stored geometry round-trips to the two input points
  have habs : |o.2| < 90 := abs_lt.mpr ⟨by linarith, h90⟩
  have habsd : |d.2| < 90 := hlat ▸ habs
  have hgeom : (mkRoute o d).geometry = [q2r o, q2r d] :=
    mkRoute_geometry o d habs habsd
  have hpath : pathGCLength (mkRoute o d).geometry = greatCircleDist (q2r o) (q2r d) := by
    rw [hgeom]
    simp [pathGCLength]
  -- identify the great-circle expression at the common latitude
  have hgc : greatCircleDist (q2r o) (q2r d) = earthRadius * Real.arccos
      (Real.sin (toRadians ((d.2 : ℝ))) * Real.sin (toRadians ((d.2 : ℝ)))
        + Real.cos (toRadians ((d.2 : ℝ))) * Real.cos (toRadians ((d.2 : ℝ)))
        * Real.cos (toRadians ((d.1 : ℝ)) - toRadians ((o.1 : ℝ)))) := by
    have b2 : greatCircleDist (q2r o) (q2r d) = earthRadius * Real.arccos
        (Real.sin (toRadians ((o.2 : ℝ))) * Real.sin (toRadians ((d.2 : ℝ)))
          + Real.cos (toRadians ((o.2 : ℝ))) * Real.cos (toRadians ((d.2 : ℝ)))
          * Real.cos (toRadians ((d.1 : ℝ)) - toRadians ((o.1 : ℝ)))) := rfl
    rw [b2, hlat']
  have harc := arccos_same_lat_lt hT0 hTp hδ0 hδπ
  rw [hpath, hgc, hfirst]
  exact mul_lt_mul_of_pos_left harc hR

/-! ## Claim theorems -/

/-- Claim C1: whenever both an origin and a destination route point exist for
the project, `generateRoute` succeeds and produces exactly the two-vertex
straight line from the origin coordinate to the destination coordinate; its
cost is the mock value `length * 1000` rather than the output of any
path-finding computation, and the analytics report rendered for the route is
the hard-coded `mockAnalytics` constant, whatever route row is loaded. -/
theorem c1_straight_line_route (db : Db) (pid : ℕ) (o d : RoutePointRow)
    (rt : Option RouteRow)
    (ho : (projectPoints db pid).find?
      (fun r => r.point_type == PointType.origin) = some o)
    (hd : (projectPoints db pid).find?
      (fun r => r.point_type == PointType.destination) = some d)
    (hlato : |o.coord.2| < 90) (hlatd : |d.coord.2| < 90) :
    generateRoute db pid = Except.ok (mkRoute o.coord d.coord,
      { db with routes := upsertRoutes db.routes pid (mkRoute o.coord d.coord) }) ∧
    (mkRoute o.coord d.coord).geometry = [q2r o.coord, q2r d.coord] ∧
    (mkRoute o.coord d.coord).cost = (mkRoute o.coord d.coord).length_km * 1000 ∧
    (stepAnalyticsView rt).report = mockAnalytics :=
  ⟨generateRoute_ok db pid o d ho hd,
   mkRoute_geometry o.coord d.coord hlato hlatd, rfl, rfl⟩

/-- Witness for C1 at a concrete state. -/
theorem c1_straight_line_route_witness :
    generateRoute baseDb 1 = Except.ok (mkRoute (2, 2) (8, 8),
      { baseDb with routes := upsertRoutes baseDb.routes 1 (mkRoute (2, 2) (8, 8)) }) ∧
    (mkRoute (2, 2) (8, 8)).geometry = [q2r (2, 2), q2r (8, 8)] ∧
    (mkRoute (2, 2) (8, 8)).cost = (mkRoute (2, 2) (8, 8)).length_km * 1000 ∧
    (stepAnalyticsView none).report = mockAnalytics :=
  c1_straight_line_route baseDb 1
    { project_id := 1, point_type := PointType.origin, coord := (2, 2) }
    { project_id := 1, point_type := PointType.destination, coord := (8, 8) }
    none rfl rfl (by decide) (by decide)

/-- Claim C2 counterexample: in a concrete state whose destination point
(50, 50) lies outside the stored AOI polygon, `generateRoute` succeeds with
an ordinary route; it does not yield `InvalidEndpointError` (no such error
even exists in the code, whose only failure is `missingPoints`). -/
theorem c2_counterexample_outside_destination_accepted :
    pointInRing squareRing (50, 50) = false ∧
    outsideDestDb.aoi_polygons = [(1, squareRing)] ∧
    (projectPoints outsideDestDb 1).find?
      (fun r => r.point_type == PointType.destination) =
      some { project_id := 1, point_type := PointType.destination, coord := (50, 50) } ∧
    ∃ r db', generateRoute outsideDestDb 1 = Except.ok (r, db') :=
  ⟨by decide, rfl, rfl,
   ⟨mkRoute (2, 2) (50, 50),
    { outsideDestDb with
        routes := upsertRoutes outsideDestDb.routes 1 (mkRoute (2, 2) (50, 50)) },
    generateRoute_ok outsideDestDb 1
      { project_id := 1, point_type := PointType.origin, coord := (2, 2) }
      { project_id := 1, point_type := PointType.destination, coord := (50, 50) }
      rfl rfl⟩⟩

/-- Claim C2 amended: `generateRoute` performs no endpoint validation at all:
whenever both points exist it returns the straight-line route, regardless of
where the destination lies relative to the AOI polygon (the state's
`aoi_polygons` is arbitrary and unread). -/
theorem c2_amended_no_endpoint_validation (db : Db) (pid : ℕ)
    (o d : RoutePointRow)
    (ho : (projectPoints db pid).find?
      (fun r => r.point_type == PointType.origin) = some o)
    (hd : (projectPoints db pid).find?
      (fun r => r.point_type == PointType.destination) = some d) :
    generateRoute db pid = Except.ok (mkRoute o.coord d.coord,
      { db with routes := upsertRoutes db.routes pid (mkRoute o.coord d.coord) }) :=
  generateRoute_ok db pid o d ho hd

/-- Witness for the amended C2 at the outside-destination state. -/
theorem c2_amended_witness :
    generateRoute outsideDestDb 1 = Except.ok (mkRoute (2, 2) (50, 50),
      { outsideDestDb with
          routes := upsertRoutes outsideDestDb.routes 1 (mkRoute (2, 2) (50, 50)) }) :=
  c2_amended_no_endpoint_validation outsideDestDb 1
    { project_id := 1, point_type := PointType.origin, coord := (2, 2) }
    { project_id := 1, point_type := PointType.destination, coord := (50, 50) }
    rfl rfl

/-- Claim C3: two invocations of `generateRoute` over identical inputs (same
`route_points` and same `routes` table) produce an identical CandidateRoute
(geometry, length and cost), an identical stored `routes` table, and an
identical analytics view; no randomness enters any of these values. -/
theorem c3_idempotent_generation (db1 db2 : Db) (pid : ℕ)
    (r1 r2 : GeneratedRoute) (db1' db2' : Db)
    (hp : db1.route_points = db2.route_points) (hr : db1.routes = db2.routes)
    (h1 : generateRoute db1 pid = Except.ok (r1, db1'))
    (h2 : generateRoute db2 pid = Except.ok (r2, db2')) :
    r1 = r2 ∧ db1'.routes = db2'.routes ∧
    stepAnalyticsView (routeFor db1' pid) = stepAnalyticsView (routeFor db2' pid) := by
  obtain ⟨hrf1, hd1⟩ := generateRoute_inv h1
  obtain ⟨hrf2, hd2⟩ := generateRoute_inv h2
  have hpp : projectPoints db1 pid = projectPoints db2 pid := by
    unfold projectPoints
    rw [hp]
  rw [hpp, hrf2] at hrf1
  have hrr : r2 = r1 := Except.ok.inj hrf1
  subst hrr
  have hroutes : db1'.routes = db2'.routes := by
    rw [hd1, hd2]
    show upsertRoutes db1.routes pid r2 = upsertRoutes db2.routes pid r2
    rw [hr]
  refine ⟨rfl, hroutes, ?_⟩
  unfold routeFor
  rw [hroutes]

/-- Witness for C3: two states differing only in the AOI table. -/
theorem c3_witness :
    mkRoute (2, 2) (8, 8) = mkRoute (2, 2) (8, 8) ∧
    ({ baseDb with
        routes := upsertRoutes baseDb.routes 1 (mkRoute (2, 2) (8, 8)) } : Db).routes
      = ({ otherAoiDb with
        routes := upsertRoutes otherAoiDb.routes 1 (mkRoute (2, 2) (8, 8)) } : Db).routes ∧
    stepAnalyticsView (routeFor
      { baseDb with routes := upsertRoutes baseDb.routes 1 (mkRoute (2, 2) (8, 8)) } 1)
      = stepAnalyticsView (routeFor
      { otherAoiDb with routes := upsertRoutes otherAoiDb.routes 1 (mkRoute (2, 2) (8, 8)) } 1) :=
  c3_idempotent_generation baseDb otherAoiDb 1
    (mkRoute (2, 2) (8, 8)) (mkRoute (2, 2) (8, 8))
    { baseDb with routes := upsertRoutes baseDb.routes 1 (mkRoute (2, 2) (8, 8)) }
    { otherAoiDb with routes := upsertRoutes otherAoiDb.routes 1 (mkRoute (2, 2) (8, 8)) }
    rfl rfl rfl rfl

/-- Claim C4 counterexample: for the concrete state with points (0°, 60°) and
(1°, 60°), the generated route's recorded `length_km` is strictly larger than
the sum of great-circle segment distances over its vertices (divided by 1000
for the km/m unit change), so the recorded length does not equal the
great-circle sum: the code records the Web-Mercator planar distance instead. -/
theorem c4_counterexample_length_not_great_circle :
    ∃ r db', generateRoute highLatDb 1 = Except.ok (r, db') ∧
      pathGCLength r.geometry < 1000 * r.length_km := by
  refine ⟨mkRoute (0, 60) (1, 60),
    { highLatDb with routes := upsertRoutes highLatDb.routes 1 (mkRoute (0, 60) (1, 60)) },
    generateRoute_ok highLatDb 1
      { project_id := 1, point_type := PointType.origin, coord := (0, 60) }
      { project_id := 1, point_type := PointType.destination, coord := (1, 60) }
      rfl rfl, ?_⟩
  exact (mkRoute_same_lat (0, 60) (1, 60) rfl (by decide) (by decide)
    (by decide) (show (1 : ℚ) - 0 ≤ 180 by norm_num)).2

/-- Claim C4 amended: the recorded total length is the planar Euclidean
distance between the Web-Mercator (EPSG:3857) projections of the two
endpoints, divided by 1000; it is not the great-circle segment sum — for any
pair of points on a common latitude in (0°, 90°) separated eastward by at
most 180° of longitude it strictly exceeds it (and EPSG:3857 is not an
equal-area projection). -/
theorem c4_amended_mercator_planar_length (db : Db) (pid : ℕ)
    (o d : RoutePointRow)
    (ho : (projectPoints db pid).find?
      (fun r => r.point_type == PointType.origin) = some o)
    (hd : (projectPoints db pid).find?
      (fun r => r.point_type == PointType.destination) = some d)
    (hlat : o.coord.2 = d.coord.2) (h0 : 0 < o.coord.2) (h90 : o.coord.2 < 90)
    (hlon : o.coord.1 < d.coord.1) (h180 : d.coord.1 - o.coord.1 ≤ 180) :
    generateRoute db pid = Except.ok (mkRoute o.coord d.coord,
      { db with routes := upsertRoutes db.routes pid (mkRoute o.coord d.coord) }) ∧
    1000 * (mkRoute o.coord d.coord).length_km
      = earthRadius * (toRadians ((d.coord.1 : ℝ)) - toRadians ((o.coord.1 : ℝ))) ∧
    pathGCLength (mkRoute o.coord d.coord).geometry
      < 1000 * (mkRoute o.coord d.coord).length_km :=
  ⟨generateRoute_ok db pid o d ho hd,
   (mkRoute_same_lat o.coord d.coord hlat h0 h90 hlon h180).1,
   (mkRoute_same_lat o.coord d.coord hlat h0 h90 hlon h180).2⟩

/-- Witness for the amended C4 at the latitude-60° state. -/
theorem c4_amended_witness :
    generateRoute highLatDb 1 = Except.ok (mkRoute (0, 60) (1, 60),
      { highLatDb with
          routes := upsertRoutes highLatDb.routes 1 (mkRoute (0, 60) (1, 60)) }) ∧
    1000 * (mkRoute (0, 60) (1, 60)).length_km
      = earthRadius * (toRadians (((1 : ℚ) : ℝ)) - toRadians (((0 : ℚ) : ℝ))) ∧
    pathGCLength (mkRoute (0, 60) (1, 60)).geometry
      < 1000 * (mkRoute (0, 60) (1, 60)).length_km :=
  c4_amended_mercator_planar_length highLatDb 1
    { project_id := 1, point_type := PointType.origin, coord := (0, 60) }
    { project_id := 1, point_type := PointType.destination, coord := (1, 60) }
    rfl rfl rfl (by decide) (by decide) (by decide)
    (show (1 : ℚ) - 0 ≤ 180 by norm_num)

/-- Claim C5: `savePoint` replaces the previously stored point of the given
type: afterwards the project holds exactly the one new point of that type,
and if every project previously had at most one origin and one destination
point, that invariant still holds for every project and type. -/
theorem c5_point_replacement (db : Db) (pid : ℕ) (ty : PointType) (c : ℚ × ℚ)
    (h : atMostOnePoint db) :
    pointsFor (savePoint db pid ty c) pid ty
      = [{ project_id := pid, point_type := ty, coord := c }] ∧
    atMostOnePoint (savePoint db pid ty c) := by
  refine ⟨pointsFor_savePoint_self db pid ty c, ?_⟩
  intro pid' ty'
  by_cases hkey : pid' = pid ∧ ty' = ty
  · obtain ⟨h1, h2⟩ := hkey
    subst h1
    subst h2
    rw [pointsFor_savePoint_self]
    simp
  · rw [pointsFor_savePoint_other db pid ty c pid' ty' hkey]
    exact h pid' ty'

/-- Witness for C5: replacing the single stored origin point. -/
theorem c5_point_replacement_witness :
    pointsFor (savePoint oneOriginDb 1 PointType.origin (3, 3)) 1 PointType.origin
      = [{ project_id := 1, point_type := PointType.origin, coord := (3, 3) }] ∧
    atMostOnePoint (savePoint oneOriginDb 1 PointType.origin (3, 3)) :=
  c5_point_replacement oneOriginDb 1 PointType.origin (3, 3)
    (fun _ _ => le_trans (List.length_filter_le _ _) (le_refl 1))

/-- Claim C6: under the schema's unique-route-per-project invariant, a
successful `generateRoute` leaves the project with exactly one `routes` row,
holding precisely the new geometry, length and cost (no other versions or
history), and the invariant is preserved for every project. -/
theorem c6_single_route_replaced_wholesale (db : Db) (pid : ℕ)
    (r : GeneratedRoute) (db' : Db)
    (hu : uniqueRoutePerProject db)
    (h : generateRoute db pid = Except.ok (r, db')) :
    (routesFor db' pid).map rowData = [(pid, r.geometry, r.length_km, r.cost)] ∧
    uniqueRoutePerProject db' := by
  obtain ⟨hrf, hdb⟩ := generateRoute_inv h
  subst hdb
  constructor
  · exact upsertRoutes_filter_self db.routes pid r (hu pid)
  · intro pid'
    by_cases hne : pid' = pid
    · subst hne
      have hself := upsertRoutes_filter_self db.routes pid' r (hu pid')
      have hlen := congrArg List.length hself
      rw [List.length_map] at hlen
      simp only [List.length_cons, List.length_nil] at hlen
      show ((upsertRoutes db.routes pid' r).filter
        (fun rt => rt.project_id == pid')).length ≤ 1
      omega
    · have hother := upsertRoutes_filter_other db.routes pid r pid' hne
      show ((upsertRoutes db.routes pid r).filter
        (fun rt => rt.project_id == pid')).length ≤ 1
      rw [hother]
      exact hu pid'

/-- Witness for C6 at a concrete state with no pre-existing route. -/
theorem c6_single_route_witness :
    (routesFor { baseDb with
        routes := upsertRoutes baseDb.routes 1 (mkRoute (2, 2) (8, 8)) } 1).map rowData
      = [(1, (mkRoute (2, 2) (8, 8)).geometry, (mkRoute (2, 2) (8, 8)).length_km,
          (mkRoute (2, 2) (8, 8)).cost)] ∧
    uniqueRoutePerProject { baseDb with
        routes := upsertRoutes baseDb.routes 1 (mkRoute (2, 2) (8, 8)) } :=
  c6_single_route_replaced_wholesale baseDb 1 (mkRoute (2, 2) (8, 8))
    { baseDb with routes := upsertRoutes baseDb.routes 1 (mkRoute (2, 2) (8, 8)) }
    (fun _ => le_trans (List.length_filter_le _ _) (Nat.zero_le 1))
    rfl

/-- Claim C7: for a fixed AOI, point pair and state, changing any
`generalWeight` (in particular increasing it) never decreases the resulting
route's cost — the cost is identical under any two parameter tables — and the
requirement to prefer a cheaper alternate route holds degenerately: under the
stub's own cost model (cost = planar length of the EPSG:3857 polyline) the
chosen straight segment already minimises cost, so no alternate polyline
between the same projected endpoints is ever cheaper. -/
theorem c7_weight_monotonicity (db : Db) (pid : ℕ)
    (ps1 ps2 : List (ℕ × List ParameterRow)) (o d : RoutePointRow)
    (r1 r2 : GeneratedRoute) (db1' db2' : Db) (alt : List (ℝ × ℝ))
    (ho : (projectPoints db pid).find?
      (fun r => r.point_type == PointType.origin) = some o)
    (hd : (projectPoints db pid).find?
      (fun r => r.point_type == PointType.destination) = some d)
    (h1 : generateRoute { db with routing_parameters := ps1 } pid
      = Except.ok (r1, db1'))
    (h2 : generateRoute { db with routing_parameters := ps2 } pid
      = Except.ok (r2, db2'))
    (hh : alt.head? = some (merc (q2r o.coord)))
    (hl : alt.getLast? = some (merc (q2r d.coord))) :
    r2.cost = r1.cost ∧ r1.cost ≤ r2.cost ∧ r1.cost ≤ planarLength alt := by
  have e1 := generateRoute_ok { db with routing_parameters := ps1 } pid o d ho hd
  rw [e1] at h1
  have e2 := generateRoute_ok { db with routing_parameters := ps2 } pid o d ho hd
  rw [e2] at h2
  have g1 : mkRoute o.coord d.coord = r1 := congrArg Prod.fst (Except.ok.inj h1)
  have g2 : mkRoute o.coord d.coord = r2 := congrArg Prod.fst (Except.ok.inj h2)
  have hcost : (mkRoute o.coord d.coord).cost
      = segLen (merc (q2r o.coord)) (merc (q2r d.coord)) := by
    show Real.sqrt (((merc (q2r d.coord)).1 - (merc (q2r o.coord)).1) ^ 2
        + ((merc (q2r d.coord)).2 - (merc (q2r o.coord)).2) ^ 2) / 1000 * 1000
      = segLen (merc (q2r o.coord)) (merc (q2r d.coord))
    unfold segLen
    ring
  have hle := straight_le_planarLength alt _ _ hh hl
  refine ⟨by rw [← g1, ← g2], by rw [← g1, ← g2], ?_⟩
  rw [← g1, hcost]
  exact hle

/-- Witness for C7: default weights versus a table with the Forest
`generalWeight` raised from 0.3 to 0.9, and a concrete detour polyline. -/
theorem c7_weight_monotonicity_witness :
    (mkRoute (2, 2) (8, 8)).cost = (mkRoute (2, 2) (8, 8)).cost ∧
    (mkRoute (2, 2) (8, 8)).cost ≤ (mkRoute (2, 2) (8, 8)).cost ∧
    (mkRoute (2, 2) (8, 8)).cost ≤ planarLength
      [merc (q2r (2, 2)), ((0 : ℝ), (0 : ℝ)), merc (q2r (8, 8))] :=
  c7_weight_monotonicity baseDb 1 [(1, defaultParameters)]
    [(1, handleWeightChange defaultParameters 1 WeightField.generalWeight 0.9)]
    { project_id := 1, point_type := PointType.origin, coord := (2, 2) }
    { project_id := 1, point_type := PointType.destination, coord := (8, 8) }
    (mkRoute (2, 2) (8, 8)) (mkRoute (2, 2) (8, 8))
    { aoi_polygons := baseDb.aoi_polygons,
      routing_parameters := [(1, defaultParameters)],
      route_points := baseDb.route_points,
      routes := upsertRoutes baseDb.routes 1 (mkRoute (2, 2) (8, 8)) }
    { aoi_polygons := baseDb.aoi_polygons,
      routing_parameters :=
        [(1, handleWeightChange defaultParameters 1 WeightField.generalWeight 0.9)],
      route_points := baseDb.route_points,
      routes := upsertRoutes baseDb.routes 1 (mkRoute (2, 2) (8, 8)) }
    [merc (q2r (2, 2)), ((0 : ℝ), (0 : ℝ)), merc (q2r (8, 8))]
    rfl rfl rfl rfl rfl rfl

/-- Claim C8: every entry of the default weight table lies in [0, 1], but the
editing operation does not preserve this: `handleWeightChange` stores the
passed value without validation, so passing 5 (typable into the 0-1 number
input) yields a table with a weight outside [0, 1]. -/
theorem c8_weight_range_violation :
    defaultParameters.all weightsInRange = true ∧
    ((handleWeightChange defaultParameters 0 WeightField.generalWeight 5).all
      weightsInRange) = false ∧
    ((handleWeightChange defaultParameters 0 WeightField.generalWeight 5).head?).map
      ParameterRow.generalWeight = some 5 := by
  refine ⟨?_, ?_, ?_⟩
  · norm_num [defaultParameters, weightsInRange]
  · norm_num [defaultParameters, weightsInRange, handleWeightChange, setWeight]
  · norm_num [defaultParameters, handleWeightChange, setWeight]

/-- Claim C9 (implicit): the produced route depends only on the origin and
destination rows that `generateRoute` reads; two invocations over states with
the same origin and destination points but arbitrarily different AOI
polygons, weight tables and stored routes produce identical geometry, length
and cost. -/
theorem c9_route_independent_of_aoi_and_weights (db1 db2 : Db) (pid1 pid2 : ℕ)
    (o d : RoutePointRow) (r1 r2 : GeneratedRoute) (db1' db2' : Db)
    (ho1 : (projectPoints db1 pid1).find?
      (fun r => r.point_type == PointType.origin) = some o)
    (hd1 : (projectPoints db1 pid1).find?
      (fun r => r.point_type == PointType.destination) = some d)
    (ho2 : (projectPoints db2 pid2).find?
      (fun r => r.point_type == PointType.origin) = some o)
    (hd2 : (projectPoints db2 pid2).find?
      (fun r => r.point_type == PointType.destination) = some d)
    (h1 : generateRoute db1 pid1 = Except.ok (r1, db1'))
    (h2 : generateRoute db2 pid2 = Except.ok (r2, db2')) :
    r1 = r2 := by
  have e1 := generateRoute_ok db1 pid1 o d ho1 hd1
  rw [e1] at h1
  have e2 := generateRoute_ok db2 pid2 o d ho2 hd2
  rw [e2] at h2
  have g1 : mkRoute o.coord d.coord = r1 := congrArg Prod.fst (Except.ok.inj h1)
  have g2 : mkRoute o.coord d.coord = r2 := congrArg Prod.fst (Except.ok.inj h2)
  rw [← g1, ← g2]

/-- Witness for C9: `baseDb` versus a state with a different AOI, a raised
Forest weight and an extra stored route. -/
theorem c9_independence_witness :
    mkRoute (2, 2) (8, 8) = mkRoute (2, 2) (8, 8) :=
  c9_route_independent_of_aoi_and_weights baseDb alteredDb 1 1
    { project_id := 1, point_type := PointType.origin, coord := (2, 2) }
    { project_id := 1, point_type := PointType.destination, coord := (8, 8) }
    (mkRoute (2, 2) (8, 8)) (mkRoute (2, 2) (8, 8))
    { baseDb with routes := upsertRoutes baseDb.routes 1 (mkRoute (2, 2) (8, 8)) }
    { alteredDb with routes := upsertRoutes alteredDb.routes 1 (mkRoute (2, 2) (8, 8)) }
    rfl rfl rfl rfl rfl rfl

/-- Claim C10 (implicit): for every route stored by `generateRoute` — the
returned value and every `routes` row of the project after the upsert,
whether inserted or updated — the stored cost equals exactly 1000 times the
stored length in kilometers. -/
theorem c10_cost_is_1000_times_length (db : Db) (pid : ℕ) (r : GeneratedRoute)
    (db' : Db) (row : RouteRow)
    (h : generateRoute db pid = Except.ok (r, db'))
    (hrow : row ∈ db'.routes) (hpid : row.project_id = pid) :
    r.cost = 1000 * r.length_km ∧ row.cost = 1000 * row.length_km := by
  obtain ⟨hrf, hdb⟩ := generateRoute_inv h
  obtain ⟨o, d, ho, hd, hmk⟩ := routeFromPoints_inv hrf
  have hc : r.cost = 1000 * r.length_km := by
    rw [hmk]
    rw [show (mkRoute o.coord d.coord).cost
      = (mkRoute o.coord d.coord).length_km * 1000 from rfl]
    ring
  refine ⟨hc, ?_⟩
  have hrow' : row ∈ upsertRoutes db.routes pid r := by
    rw [hdb] at hrow
    exact hrow
  unfold upsertRoutes at hrow'
  by_cases hf : (db.routes.find? (fun rt => rt.project_id == pid)).isSome
  · rw [if_pos hf] at hrow'
    obtain ⟨x, hxmem, hgx⟩ := List.mem_map.mp hrow'
    by_cases hxp : (x.project_id == pid) = true
    · rw [if_pos hxp] at hgx
      rw [← hgx]
      show r.cost = 1000 * r.length_km
      exact hc
    · rw [if_neg hxp] at hgx
      rw [← hgx] at hpid
      exact absurd (beq_iff_eq.mpr hpid) hxp
  · rw [if_neg hf] at hrow'
    rcases List.mem_append.mp hrow' with hin | hin
    · have hnp := List.find?_eq_none.mp (Option.not_isSome_iff_eq_none.mp hf) row hin
      exact absurd (beq_iff_eq.mpr hpid) hnp
    · have hrow2 : row = ({ project_id := pid, geometry := r.geometry, length_km := r.length_km, cost := r.cost, analytics := none } : RouteRow) := by
        simpa using hin
      rw [hrow2]
      show r.cost = 1000 * r.length_km
      exact hc

/-- Witness for C10 at a concrete insertion. -/
theorem c10_cost_length_witness :
    (mkRoute (2, 2) (8, 8)).cost = 1000 * (mkRoute (2, 2) (8, 8)).length_km ∧
    insertedRow.cost = 1000 * insertedRow.length_km :=
  c10_cost_is_1000_times_length baseDb 1 (mkRoute (2, 2) (8, 8))
    { baseDb with routes := upsertRoutes baseDb.routes 1 (mkRoute (2, 2) (8, 8)) }
    insertedRow rfl (List.mem_singleton_self _) rfl

end InnovationNest
